import Mathlib

/-!
GASBase: the player state `AGASPlayerState`.

A shallow embedding of `Source/GASBase/Private/Player/GASPlayerState.cpp` and the
properties of its attribute-change and tag-change handlers.

* C++ `float` values are modelled by their IEEE-754 class (`float`), with the IEEE
  comparison operators; `int32` counts are integers.
* Object pointers that the source dereferences (`AbilitySystemComponent`,
  `AttributeSet`) are `Option`s; a member function returns `none` when it dereferences
  a null pointer.
* Calls the handlers make on collaborators (`Die`, `CancelAbilities`) are recorded in
  the list of `Call`s the handler returns, next to the player state it leaves behind.
-/

namespace GASBase

/-! ## C++ `float` -/

/-- A value of the C++ type `float` (IEEE-754 binary32), by class: a NaN, a signed
infinity, or a finite value `(-1)^neg * m * 2^e` (zeros are the finite values with
`m = 0`). Every binary32 datum is one of these. -/
inductive float where
  | nan : float
  | inf (neg : Bool) : float
  | finite (neg : Bool) (m : Nat) (e : Int) : float
  deriving DecidableEq

namespace float

/-- The signed significand of the finite value `(-1)^neg * m * 2^e` once its exponent is
lowered to `k` (used with `k ≤ e`). -/
def aligned (neg : Bool) (m : Nat) (e k : Int) : Int :=
  (if neg then -(m : Int) else (m : Int)) * 2 ^ (e - k).toNat

/-- The C++ operator `a <= b` on `float`: false as soon as an operand is a NaN. -/
def le : float → float → Bool
  | nan, _ => false
  | _, nan => false
  | inf true, _ => true
  | _, inf false => true
  | inf false, _ => false
  | _, inf true => false
  | finite na ma ea, finite nb mb eb =>
    decide (aligned na ma ea (min ea eb) ≤ aligned nb mb eb (min ea eb))

/-- The C++ operator `a >= b` on `float`. -/
def ge (a b : float) : Bool := le b a

/-- The C++ operator `a < b` on `float`. -/
def lt (a b : float) : Bool := le a b && !(le b a)

/-- The C++ operator `a > b` on `float`. -/
def gt (a b : float) : Bool := lt b a

/-- The literal `0.0f`. -/
def zero : float := finite false 0 0

/-- The `float` that holds the integer `z` exactly (for small integers such as `100.0f`,
`50.0f` and `-5.0f`). -/
def ofInt (z : Int) : float := finite (decide (z < 0)) z.natAbs 0

/-- Whether the value is a NaN. -/
def isNaN : float → Bool
  | nan => true
  | _ => false

/-- The rational number `(-1)^neg * m * 2^e`. -/
def value (neg : Bool) (m : Nat) (e : Int) : ℚ :=
  (if neg then -(m : ℚ) else (m : ℚ)) * (2 : ℚ) ^ e

/-- The rational number a finite `float` stands for; `none` for NaN and infinities. -/
def toRat : float → Option ℚ
  | finite neg m e => some (value neg m e)
  | _ => none

end float

/-! ## Gameplay tags -/

/-- The engine type `FGameplayTag`: a tag is identified by its name. -/
structure FGameplayTag where
  TagName : String
  deriving DecidableEq

/-- The engine call `FGameplayTag::RequestGameplayTag(FName(TagName))`. -/
def FGameplayTag.RequestGameplayTag (TagName : String) : FGameplayTag :=
  { TagName := TagName }

/-- The engine type `FGameplayTagContainer`: the tags added explicitly, in order. -/
structure FGameplayTagContainer where
  GameplayTags : List FGameplayTag
  deriving DecidableEq

/-- A default-constructed `FGameplayTagContainer`. -/
def FGameplayTagContainer.empty : FGameplayTagContainer :=
  { GameplayTags := [] }

/-- The engine call `FGameplayTagContainer::AddTag`: tags are kept unique. -/
def FGameplayTagContainer.AddTag (c : FGameplayTagContainer) (TagToAdd : FGameplayTag) :
    FGameplayTagContainer :=
  if TagToAdd ∈ c.GameplayTags then c
  else { GameplayTags := c.GameplayTags ++ [TagToAdd] }

/-! ## Collaborators -/

/-- The attributes of `UGASAttributeSet` the player state reads (`FGameplayAttribute`
identities). -/
inductive FGameplayAttribute where
  | Health | MaxHealth | HealthRegenRate | MoveSpeed | CharacterLevel
  | XP | XPBounty | Gold | GoldBounty
  deriving DecidableEq

/-- The attribute store `UGASAttributeSet`: the current value of each attribute. -/
structure UGASAttributeSet where
  Health : float
  MaxHealth : float
  HealthRegenRate : float
  MoveSpeed : float
  CharacterLevel : float
  XP : float
  XPBounty : float
  Gold : float
  GoldBounty : float
  deriving DecidableEq

/-- The attribute store with Health changed to `NewValue` (done by the engine, which owns
the store). -/
def UGASAttributeSet.SetHealth (attrs : UGASAttributeSet) (NewValue : float) :
    UGASAttributeSet :=
  { attrs with Health := NewValue }

/-- The member functions of `AGASPlayerState` that `BeginPlay` binds to attribute-change
delegates. -/
inductive FAttributeCallback where
  | HealthChanged | MaxHealthChanged | HealthRegenRateChanged
  | XPChanged | GoldChanged | CharacterLevelChanged
  deriving DecidableEq

/-- The member functions of `AGASPlayerState` that `BeginPlay` binds to tag events. -/
inductive FTagCallback where
  | StunTagChanged
  deriving DecidableEq

/-- The engine enumeration `EGameplayTagEventType`. -/
inductive EGameplayTagEventType where
  | NewOrRemoved | AnyCountChange
  deriving DecidableEq

/-- The engine type `FDelegateHandle`; `ID = 0` is the unbound handle. -/
structure FDelegateHandle where
  ID : Nat
  deriving DecidableEq

/-- One binding `GetGameplayAttributeValueChangeDelegate(Attribute).AddUObject(this, Callback)`. -/
structure FAttributeSubscription where
  Attribute : FGameplayAttribute
  Callback : FAttributeCallback
  Handle : FDelegateHandle
  deriving DecidableEq

/-- One binding `RegisterGameplayTagEvent(Tag, EventType).AddUObject(this, Callback)`. -/
structure FTagSubscription where
  Tag : FGameplayTag
  EventType : EGameplayTagEventType
  Callback : FTagCallback
  Handle : FDelegateHandle
  deriving DecidableEq

/-- The ability controller `UGASAbilitySystemComponent`, as far as the player state uses
it: the tags it currently counts as owned (one entry per count), the subscriptions
registered on it, and the identifier of the next delegate handle. -/
structure UAbilitySystemComponent where
  OwnedTags : List FGameplayTag
  AttributeValueChangeDelegates : List FAttributeSubscription
  GameplayTagEvents : List FTagSubscription
  NextHandleID : Nat
  deriving DecidableEq

namespace UAbilitySystemComponent

/-- The engine call `HasMatchingGameplayTag(Tag)`: the tag has a positive count. -/
def HasMatchingGameplayTag (asc : UAbilitySystemComponent) (Tag : FGameplayTag) : Bool :=
  decide (0 < asc.OwnedTags.count Tag)

/-- The engine call `AddLooseGameplayTag(Tag)`: one more count for the tag. -/
def AddLooseGameplayTag (asc : UAbilitySystemComponent) (Tag : FGameplayTag) :
    UAbilitySystemComponent :=
  { asc with OwnedTags := Tag :: asc.OwnedTags }

/-- The engine call chain
`GetGameplayAttributeValueChangeDelegate(Attribute).AddUObject(this, Callback)`: the
binding is appended and its fresh handle returned. -/
def AddAttributeValueChangeDelegate (asc : UAbilitySystemComponent)
    (Attribute : FGameplayAttribute) (Callback : FAttributeCallback) :
    FDelegateHandle × UAbilitySystemComponent :=
  ({ ID := asc.NextHandleID + 1 },
   { asc with
     AttributeValueChangeDelegates := asc.AttributeValueChangeDelegates ++
       [{ Attribute := Attribute, Callback := Callback, Handle := { ID := asc.NextHandleID + 1 } }]
     NextHandleID := asc.NextHandleID + 1 })

/-- The engine call chain `RegisterGameplayTagEvent(Tag, EventType).AddUObject(this, Callback)`. -/
def RegisterGameplayTagEvent (asc : UAbilitySystemComponent) (Tag : FGameplayTag)
    (EventType : EGameplayTagEventType) (Callback : FTagCallback) :
    FDelegateHandle × UAbilitySystemComponent :=
  ({ ID := asc.NextHandleID + 1 },
   { asc with
     GameplayTagEvents := asc.GameplayTagEvents ++
       [{ Tag := Tag, EventType := EventType, Callback := Callback,
          Handle := { ID := asc.NextHandleID + 1 } }]
     NextHandleID := asc.NextHandleID + 1 })

end UAbilitySystemComponent

/-- The character class `AGASCharacter` (an actor identity). -/
structure AGASCharacter where
  ActorID : Nat
  deriving DecidableEq

/-- What `GetPawn()` can point to: an `AGASCharacter` or a pawn of another class. -/
inductive APawn where
  | GASCharacter (Character : AGASCharacter)
  | OtherPawn (ActorID : Nat)
  deriving DecidableEq

/-- The controller class `AGASPlayerController` (an actor identity). -/
structure AGASPlayerController where
  ActorID : Nat
  deriving DecidableEq

/-- What `GetOwner()` can point to: an `AGASPlayerController` or another actor. -/
inductive AActor where
  | GASPlayerController (Controller : AGASPlayerController)
  | OtherActor (ActorID : Nat)
  deriving DecidableEq

/-- The engine cast `Cast<AGASCharacter>(Pawn)`: null for a null pawn and for a pawn of
another class. -/
def CastAGASCharacter : Option APawn → Option AGASCharacter
  | some (APawn.GASCharacter c) => some c
  | _ => none

/-- The engine cast `Cast<AGASPlayerController>(Owner)`. -/
def CastAGASPlayerController : Option AActor → Option AGASPlayerController
  | some (AActor.GASPlayerController pc) => some pc
  | _ => none

/-- The engine type `FOnAttributeChangeData`, the payload of an attribute-change
notification. -/
structure FOnAttributeChangeData where
  NewValue : float
  OldValue : float
  deriving DecidableEq

/-- A call a handler makes on a collaborator. -/
inductive Call where
  | Die (Character : AGASCharacter)
  | CancelAbilities (WithTags WithoutTags : FGameplayTagContainer)
  deriving DecidableEq

/-- Whether a call is `Character->Die()`. -/
def Call.isDie : Call → Bool
  | Call.Die _ => true
  | _ => false

/-- Whether a call is `AbilitySystemComponent->CancelAbilities(..)`. -/
def Call.isCancelAbilities : Call → Bool
  | Call.CancelAbilities _ _ => true
  | _ => false

/-! ## `AGASPlayerState` -/

/-- The player state `AGASPlayerState`: its two subobject pointers, the cached tag, the
delegate handles `BeginPlay` stores, and the pawn and owner the engine links it to. -/
structure AGASPlayerState where
  AbilitySystemComponent : Option UAbilitySystemComponent
  AttributeSet : Option UGASAttributeSet
  DeadTag : FGameplayTag
  HealthChangedDelegateHandle : FDelegateHandle
  MaxHealthChangedDelegateHandle : FDelegateHandle
  HealthRegenRateChangedDelegateHandle : FDelegateHandle
  XPChangedDelegateHandle : FDelegateHandle
  GoldChangedDelegateHandle : FDelegateHandle
  CharacterLevelChangedDelegateHandle : FDelegateHandle
  Pawn : Option APawn
  Owner : Option AActor
  deriving DecidableEq

namespace AGASPlayerState

/-- The constructor `AGASPlayerState::AGASPlayerState()`: both subobjects are created (with
the engine defaults `asc` and `attrs`) and the Dead tag is cached; no pawn or owner is
linked yet. The replication settings and `NetUpdateFrequency` it also sets are engine
state outside this model. -/
def ctor (asc : UAbilitySystemComponent) (attrs : UGASAttributeSet) : AGASPlayerState :=
  { AbilitySystemComponent := some asc
    AttributeSet := some attrs
    DeadTag := FGameplayTag.RequestGameplayTag "State.Dead"
    HealthChangedDelegateHandle := { ID := 0 }
    MaxHealthChangedDelegateHandle := { ID := 0 }
    HealthRegenRateChangedDelegateHandle := { ID := 0 }
    XPChangedDelegateHandle := { ID := 0 }
    GoldChangedDelegateHandle := { ID := 0 }
    CharacterLevelChangedDelegateHandle := { ID := 0 }
    Pawn := none
    Owner := none }

/-- The engine accessor `GetPawn()`. -/
def GetPawn (self : AGASPlayerState) : Option APawn := self.Pawn

/-- The engine accessor `GetOwner()`. -/
def GetOwner (self : AGASPlayerState) : Option AActor := self.Owner

/-- The accessor `GetAbilitySystemComponent()`. -/
def GetAbilitySystemComponent (self : AGASPlayerState) : Option UAbilitySystemComponent :=
  self.AbilitySystemComponent

/-- The accessor `GetAttributeSet()`. -/
def GetAttributeSet (self : AGASPlayerState) : Option UGASAttributeSet :=
  self.AttributeSet

/-- The accessor `GetHealth()`, `AttributeSet->GetHealth()`: `none` on a null `AttributeSet`. -/
def GetHealth (self : AGASPlayerState) : Option float :=
  match self.AttributeSet with
  | some attrs => some attrs.Health
  | none => none

/-- The accessor `GetMaxHealth()`. -/
def GetMaxHealth (self : AGASPlayerState) : Option float :=
  match self.AttributeSet with
  | some attrs => some attrs.MaxHealth
  | none => none

/-- The accessor `GetHealthRegenRate()`. -/
def GetHealthRegenRate (self : AGASPlayerState) : Option float :=
  match self.AttributeSet with
  | some attrs => some attrs.HealthRegenRate
  | none => none

/-- The accessor `GetMoveSpeed()`. -/
def GetMoveSpeed (self : AGASPlayerState) : Option float :=
  match self.AttributeSet with
  | some attrs => some attrs.MoveSpeed
  | none => none

/-- The member `IsAlive()`: `return GetHealth() >= 0.0f;`. -/
def IsAlive (self : AGASPlayerState) : Option Bool :=
  match self.GetHealth with
  | some Health => some (float.ge Health float.zero)
  | none => none

/-- The handler `HealthChanged(Data)`. `Data.NewValue` is copied to a local that is not
read again; the test is `!IsAlive() && !AbilitySystemComponent->HasMatchingGameplayTag(DeadTag)`
(the right operand is evaluated only when the left one is true), and `Die()` is called on
the pawn when it casts to `AGASCharacter`. -/
def HealthChanged (self : AGASPlayerState) (Data : FOnAttributeChangeData) :
    Option (AGASPlayerState × List Call) :=
  let _Health := Data.NewValue
  match self.IsAlive with
  | none => none
  | some true => some (self, [])
  | some false =>
    match self.AbilitySystemComponent with
    | none => none
    | some asc =>
      if asc.HasMatchingGameplayTag self.DeadTag then some (self, [])
      else
        match CastAGASCharacter self.GetPawn with
        | some Character => some (self, [Call.Die Character])
        | none => some (self, [])

/-- The handler `MaxHealthChanged(Data)`: two casts with empty bodies. -/
def MaxHealthChanged (self : AGASPlayerState) (Data : FOnAttributeChangeData) :
    Option (AGASPlayerState × List Call) :=
  let _MaxHealth := Data.NewValue
  let afterPawn : List Call :=
    match CastAGASCharacter self.GetPawn with
    | some _ => []
    | none => []
  match CastAGASPlayerController self.GetOwner with
  | some _ => some (self, afterPawn)
  | none => some (self, afterPawn)

/-- The handler `HealthRegenRateChanged(Data)`: a cast with an empty body. -/
def HealthRegenRateChanged (self : AGASPlayerState) (Data : FOnAttributeChangeData) :
    Option (AGASPlayerState × List Call) :=
  let _HealthRegenRate := Data.NewValue
  match CastAGASPlayerController self.GetOwner with
  | some _ => some (self, [])
  | none => some (self, [])

/-- The handler `XPChanged(Data)`: a cast with an empty body. -/
def XPChanged (self : AGASPlayerState) (Data : FOnAttributeChangeData) :
    Option (AGASPlayerState × List Call) :=
  let _XP := Data.NewValue
  match CastAGASPlayerController self.GetOwner with
  | some _ => some (self, [])
  | none => some (self, [])

/-- The handler `GoldChanged(Data)`: a cast with an empty body. -/
def GoldChanged (self : AGASPlayerState) (Data : FOnAttributeChangeData) :
    Option (AGASPlayerState × List Call) :=
  let _Gold := Data.NewValue
  match CastAGASPlayerController self.GetOwner with
  | some _ => some (self, [])
  | none => some (self, [])

/-- The handler `CharacterLevelChanged(Data)`: a cast with an empty body. -/
def CharacterLevelChanged (self : AGASPlayerState) (Data : FOnAttributeChangeData) :
    Option (AGASPlayerState × List Call) :=
  let _CharacterLevel := Data.NewValue
  match CastAGASPlayerController self.GetOwner with
  | some _ => some (self, [])
  | none => some (self, [])

/-- The handler `StunTagChanged(CallbackTag, NewCount)`: for a positive count the two tag
containers are built and `AbilitySystemComponent->CancelAbilities` is called (`none` on a
null `AbilitySystemComponent`). -/
def StunTagChanged (self : AGASPlayerState) (_CallbackTag : FGameplayTag) (NewCount : Int) :
    Option (AGASPlayerState × List Call) :=
  if NewCount > 0 then
    let AbilityTagsToCancel :=
      FGameplayTagContainer.empty.AddTag (FGameplayTag.RequestGameplayTag "Ability")
    let AbilityTagsToIgnore :=
      FGameplayTagContainer.empty.AddTag
        (FGameplayTag.RequestGameplayTag "Ability.NotCanceledByStun")
    match self.AbilitySystemComponent with
    | none => none
    | some _ => some (self, [Call.CancelAbilities AbilityTagsToCancel AbilityTagsToIgnore])
  else some (self, [])

/-- The accessors `AttributeSet->Get<Name>Attribute()` of `BeginPlay`. They are declared in
`GASAttributeSet.h`, which is not among the sources, so the one fact that matters here is a
parameter: `AccessorReadsObject` says whether the accessor reads through the `AttributeSet`
pointer (a non-static member, `none` on a null pointer) or not (a static member, as the
engine's attribute-accessor helpers declare it). -/
def GetAttribute (AccessorReadsObject : Bool) (self : AGASPlayerState)
    (Attribute : FGameplayAttribute) : Option FGameplayAttribute :=
  match self.AttributeSet with
  | some _ => some Attribute
  | none => if AccessorReadsObject then none else some Attribute

/-- The member `BeginPlay()`. After `Super::BeginPlay()` (engine code, no effect on the
fields modelled here) everything is under `if (AbilitySystemComponent)`: six attribute
delegates are bound, their handles stored, and one tag event is registered. -/
def BeginPlay (AccessorReadsObject : Bool) (self : AGASPlayerState) : Option AGASPlayerState :=
  match self.AbilitySystemComponent with
  | none => some self
  | some asc0 => do
    let a1 ← self.GetAttribute AccessorReadsObject FGameplayAttribute.Health
    let r1 := asc0.AddAttributeValueChangeDelegate a1 FAttributeCallback.HealthChanged
    let a2 ← self.GetAttribute AccessorReadsObject FGameplayAttribute.MaxHealth
    let r2 := r1.2.AddAttributeValueChangeDelegate a2 FAttributeCallback.MaxHealthChanged
    let a3 ← self.GetAttribute AccessorReadsObject FGameplayAttribute.HealthRegenRate
    let r3 := r2.2.AddAttributeValueChangeDelegate a3 FAttributeCallback.HealthRegenRateChanged
    let a4 ← self.GetAttribute AccessorReadsObject FGameplayAttribute.XP
    let r4 := r3.2.AddAttributeValueChangeDelegate a4 FAttributeCallback.XPChanged
    let a5 ← self.GetAttribute AccessorReadsObject FGameplayAttribute.Gold
    let r5 := r4.2.AddAttributeValueChangeDelegate a5 FAttributeCallback.GoldChanged
    let a6 ← self.GetAttribute AccessorReadsObject FGameplayAttribute.CharacterLevel
    let r6 := r5.2.AddAttributeValueChangeDelegate a6 FAttributeCallback.CharacterLevelChanged
    let r7 := r6.2.RegisterGameplayTagEvent
      (FGameplayTag.RequestGameplayTag "State.Debuff.Stun")
      EGameplayTagEventType.NewOrRemoved FTagCallback.StunTagChanged
    pure { self with
      AbilitySystemComponent := some r7.2
      HealthChangedDelegateHandle := r1.1
      MaxHealthChangedDelegateHandle := r2.1
      HealthRegenRateChangedDelegateHandle := r3.1
      XPChangedDelegateHandle := r4.1
      GoldChangedDelegateHandle := r5.1
      CharacterLevelChangedDelegateHandle := r6.1 }

/-- The number of subscriptions registered on the ability controller (none without one). -/
def subscriptionCount (self : AGASPlayerState) : Nat :=
  match self.AbilitySystemComponent with
  | some asc => asc.AttributeValueChangeDelegates.length + asc.GameplayTagEvents.length
  | none => 0

/-- The attribute subscriptions on the ability controller, as (attribute, handler) pairs. -/
def attributeBindings (self : AGASPlayerState) :
    List (FGameplayAttribute × FAttributeCallback) :=
  match self.AbilitySystemComponent with
  | some asc => asc.AttributeValueChangeDelegates.map (fun b => (b.Attribute, b.Callback))
  | none => []

/-- The tag subscriptions on the ability controller, as (tag, event type, handler) triples. -/
def tagBindings (self : AGASPlayerState) :
    List (FGameplayTag × EGameplayTagEventType × FTagCallback) :=
  match self.AbilitySystemComponent with
  | some asc => asc.GameplayTagEvents.map (fun b => (b.Tag, b.EventType, b.Callback))
  | none => []

/-- The trace of a run, when the run reaches its end. -/
def traceOf (run : Option (AGASPlayerState × List (List Call))) : Option (List (List Call)) :=
  match run with
  | some (_, trace) => some trace
  | none => none

/-- Whether the Dead tag (the cached `DeadTag`) is present on the ability controller. -/
def HasDeadTag (self : AGASPlayerState) : Bool :=
  match self.AbilitySystemComponent with
  | some asc => asc.HasMatchingGameplayTag self.DeadTag
  | none => false

/-- The state the constructor establishes: both subobjects exist and `DeadTag` is the
tag `State.Dead`. -/
def Constructed (self : AGASPlayerState) : Prop :=
  self.AbilitySystemComponent.isSome = true ∧ self.AttributeSet.isSome = true ∧
    self.DeadTag = FGameplayTag.RequestGameplayTag "State.Dead"

instance (self : AGASPlayerState) : Decidable self.Constructed := by
  unfold Constructed
  infer_instance

/-- The stun callback delivered once per count of `NewCounts`, in order, each on the
state the previous one left; the calls are collected per delivery. -/
def StunTagChangedEach (self : AGASPlayerState) (CallbackTag : FGameplayTag) :
    List Int → Option (AGASPlayerState × List (List Call))
  | [] => some (self, [])
  | NewCount :: rest =>
    match self.StunTagChanged CallbackTag NewCount with
    | none => none
    | some (s1, calls) =>
      match StunTagChangedEach s1 CallbackTag rest with
      | none => none
      | some (s2, trace) => some (s2, calls :: trace)

end AGASPlayerState

/-! ## The environment of the health handler -/

/-- Modelled from the spec: `AGASCharacter::Die()` is defined in `GASCharacter.cpp`, which
is not among the sources. The death transition sets the Dead tag on the ability controller
synchronously, before any further health change is observed. -/
def AGASCharacter.Die (_Character : AGASCharacter) (ps : AGASPlayerState) : AGASPlayerState :=
  match ps.AbilitySystemComponent with
  | some asc =>
    let asc1 := asc.AddLooseGameplayTag (FGameplayTag.RequestGameplayTag "State.Dead")
    { ps with AbilitySystemComponent := some asc1 }
  | none => ps

/-- The effect on the player state of a call a handler made: `Die` as modelled above;
`CancelAbilities` acts on running abilities only. -/
def Call.apply (ps : AGASPlayerState) : Call → AGASPlayerState
  | Call.Die Character => Character.Die ps
  | Call.CancelAbilities _ _ => ps

namespace AGASPlayerState

/-- Modelled from the spec: the attribute store (engine code) changes Health to `NewValue`
and delivers the change notification `(previous value, new value)` synchronously to
`HealthChanged`; the calls the handler made then take effect. -/
def NotifyHealthChange (self : AGASPlayerState) (NewValue : float) :
    Option (AGASPlayerState × List Call) :=
  match self.AttributeSet with
  | none => none
  | some attrs =>
    match HealthChanged { self with AttributeSet := some (attrs.SetHealth NewValue) }
        { NewValue := NewValue, OldValue := attrs.Health } with
    | none => none
    | some (s1, calls) => some (calls.foldl Call.apply s1, calls)

/-- A sequence of health changes notified one after the other; the calls are collected
per notification. -/
def NotifyHealthChanges (self : AGASPlayerState) :
    List float → Option (AGASPlayerState × List (List Call))
  | [] => some (self, [])
  | NewValue :: rest =>
    match self.NotifyHealthChange NewValue with
    | none => none
    | some (s1, calls) =>
      match NotifyHealthChanges s1 rest with
      | none => none
      | some (s2, trace) => some (s2, calls :: trace)

end AGASPlayerState

/-- The number of `Die()` calls in a trace. -/
def dieCount (trace : List (List Call)) : Nat :=
  (trace.flatten.filter Call.isDie).length

/-- The number of `CancelAbilities` calls in a trace. -/
def cancelCount (trace : List (List Call)) : Nat :=
  (trace.flatten.filter Call.isCancelAbilities).length

/-! ## Example states -/

/-- An ability controller with no tags and no subscriptions. -/
def exampleController : UAbilitySystemComponent :=
  { OwnedTags := [], AttributeValueChangeDelegates := [], GameplayTagEvents := [],
    NextHandleID := 0 }

/-- An attribute store with the given Health. -/
def exampleStore (Health : float) : UGASAttributeSet :=
  { Health := Health, MaxHealth := float.ofInt 100, HealthRegenRate := float.ofInt 1,
    MoveSpeed := float.ofInt 600, CharacterLevel := float.ofInt 1, XP := float.zero,
    XPBounty := float.zero, Gold := float.zero, GoldBounty := float.zero }

/-- A constructed player state with the given Health and pawn, Dead tag absent. -/
def exampleState (Health : float) (Pawn : Option APawn) : AGASPlayerState :=
  { AGASPlayerState.ctor exampleController (exampleStore Health) with Pawn := Pawn }

/-- The character of the examples. -/
def exampleCharacter : AGASCharacter := { ActorID := 7 }

/-- The example state once the Dead tag is on its ability controller. -/
def exampleDeadState (Health : float) (Pawn : Option APawn) : AGASPlayerState :=
  exampleCharacter.Die (exampleState Health Pawn)

/-- The example state with its attribute store pointer null. -/
def exampleStateNoStore : AGASPlayerState :=
  { exampleState (float.ofInt 100) none with AttributeSet := none }

/-- The example state with its ability controller pointer null. -/
def exampleStateNoController : AGASPlayerState :=
  { exampleState (float.ofInt 100) none with AbilitySystemComponent := none }

/-! ## The order on `float` -/

namespace float

theorem aligned_zero (k : Int) : aligned false 0 0 k = 0 := by
  simp [aligned]

theorem aligned_nonneg_iff (neg : Bool) (m : Nat) (e k : Int) :
    0 ≤ aligned neg m e k ↔ (neg = false ∨ m = 0) := by
  have hp : (0 : Int) < 2 ^ (e - k).toNat := by positivity
  cases neg
  · have := Int.mul_nonneg (Int.ofNat_nonneg m) (le_of_lt hp)
    simp [aligned, this]
  · simp only [aligned, if_true, neg_mul, Left.nonneg_neg_iff, Bool.true_eq_false, false_or]
    constructor
    · intro h
      by_contra hm
      have hm1 : (0 : Int) < (m : Int) := by omega
      have := Int.mul_pos hm1 hp
      omega
    · intro h
      subst h
      simp

/-- A finite value is `>= 0.0f` exactly when its sign bit is clear or it is a zero. -/
theorem ge_zero_finite (neg : Bool) (m : Nat) (e : Int) :
    ge (finite neg m e) zero = (!neg || decide (m = 0)) := by
  have h := aligned_nonneg_iff neg m e (min 0 e)
  simp only [ge, le, zero, aligned_zero]
  cases neg <;> by_cases hm : m = 0 <;> simp_all

/-- A finite value is `< 0.0f` exactly when its sign bit is set and it is not a zero. -/
theorem lt_zero_finite (neg : Bool) (m : Nat) (e : Int) :
    lt (finite neg m e) zero = (neg && decide (0 < m)) := by
  have h := aligned_nonneg_iff neg m e (min 0 e)
  simp only [lt, le, zero, aligned_zero, min_comm e 0]
  by_cases h0 : 0 ≤ aligned neg m e (min 0 e) <;>
    by_cases h1 : aligned neg m e (min 0 e) ≤ 0 <;>
    simp only [h0, h1, decide_True, decide_False, Bool.not_true, Bool.not_false,
      Bool.and_true, Bool.and_false, Bool.true_and, Bool.false_and]
  · rcases h.1 h0 with hn | hm
    · simp [hn]
    · simp [hm]
  · rcases h.1 h0 with hn | hm
    · simp [hn]
    · simp [hm]
  · have hn : neg = true := by
      cases neg
      · exact absurd (h.2 (Or.inl rfl)) h0
      · rfl
    have hm : m ≠ 0 := fun hm => h0 (h.2 (Or.inr hm))
    simp [hn]
    omega
  · exact absurd (le_of_lt (not_le.1 h0)) h1

theorem aligned_cast (neg : Bool) (m : Nat) (e k : Int) (hk : k ≤ e) :
    ((aligned neg m e k : Int) : ℚ) = value neg m e * ((2 : ℚ) ^ k)⁻¹ := by
  have h2 : ((2 : ℚ) ^ (e - k).toNat) = (2 : ℚ) ^ e * ((2 : ℚ) ^ k)⁻¹ := by
    rw [← zpow_natCast, Int.toNat_of_nonneg (by omega), zpow_sub₀ (by norm_num)]
    rfl
  unfold aligned value
  cases neg <;> simp [h2] <;> ring

/-- On finite values `<=` is the order of the rational numbers they stand for. -/
theorem le_finite_iff (na : Bool) (ma : Nat) (ea : Int) (nb : Bool) (mb : Nat) (eb : Int) :
    le (finite na ma ea) (finite nb mb eb) = true ↔ value na ma ea ≤ value nb mb eb := by
  have hc : (0 : ℚ) < ((2 : ℚ) ^ (min ea eb))⁻¹ := by positivity
  simp only [le, decide_eq_true_eq]
  rw [← @Int.cast_le ℚ, aligned_cast _ _ _ _ (min_le_left ea eb),
    aligned_cast _ _ _ _ (min_le_right ea eb)]
  exact mul_le_mul_right hc

theorem value_zero : value false 0 0 = 0 := by
  simp [value]

/-- The values that are `>= 0.0f`: plus infinity and the finite values that stand for a
rational number `≥ 0` (both zeros among them); no NaN and no minus infinity. -/
theorem ge_zero_iff (x : float) :
    ge x zero = true ↔ x = inf false ∨ ∃ q, x.toRat = some q ∧ 0 ≤ q := by
  cases x with
  | nan => simp [ge, le, zero, toRat]
  | inf neg => cases neg <;> simp [ge, le, zero, toRat]
  | finite neg m e =>
    have h := le_finite_iff false 0 0 neg m e
    rw [value_zero] at h
    simp only [toRat, Option.some.injEq, exists_eq_left', reduceCtorEq, false_or]
    exact h

/-- The values that are `< 0.0f`: minus infinity and the finite values that stand for a
rational number `< 0`. -/
theorem lt_zero_iff (x : float) :
    lt x zero = true ↔ x = inf true ∨ ∃ q, x.toRat = some q ∧ q < 0 := by
  cases x with
  | nan => simp [lt, le, zero, toRat]
  | inf neg => cases neg <;> simp [lt, le, zero, toRat]
  | finite neg m e =>
    have h1 := le_finite_iff false 0 0 neg m e
    have h2 := le_finite_iff neg m e false 0 0
    rw [value_zero] at h1 h2
    simp only [toRat, Option.some.injEq, exists_eq_left', reduceCtorEq, false_or, lt, zero,
      Bool.and_eq_true, Bool.not_eq_true', ← Bool.not_eq_true] at h1 h2 ⊢
    rw [h1, h2]
    constructor
    · intro h
      exact lt_of_not_le h.2
    · intro h
      exact ⟨le_of_lt h, not_le.2 h⟩

/-- Not being `>= 0.0f` is being `< 0.0f` or a NaN. -/
theorem ge_zero_eq_false_iff (x : float) :
    ge x zero = false ↔ lt x zero = true ∨ x = nan := by
  cases x with
  | nan => simp [ge, lt, le, zero]
  | inf neg => cases neg <;> simp [ge, lt, le, zero]
  | finite neg m e =>
    rw [ge_zero_finite, lt_zero_finite]
    cases neg <;> by_cases hm : m = 0 <;> simp [hm]
    omega

end float

/-! ## The handlers: auxiliary facts -/

namespace AGASPlayerState

theorem HealthChanged_eq (ps : AGASPlayerState) (Data : FOnAttributeChangeData)
    (asc : UAbilitySystemComponent) (attrs : UGASAttributeSet)
    (hA : ps.AbilitySystemComponent = some asc) (hS : ps.AttributeSet = some attrs) :
    ps.HealthChanged Data = some (ps,
      if float.ge attrs.Health float.zero = false ∧
          asc.HasMatchingGameplayTag ps.DeadTag = false then
        match CastAGASCharacter ps.GetPawn with
        | some Character => [Call.Die Character]
        | none => []
      else []) := by
  unfold HealthChanged IsAlive GetHealth
  simp only [hA, hS]
  cases hg : float.ge attrs.Health float.zero
  · cases hd : asc.HasMatchingGameplayTag ps.DeadTag
    · cases hc : CastAGASCharacter ps.GetPawn <;> simp
    · simp
  · simp

theorem CastAGASCharacter_eq_some (Pawn : Option APawn) (c : AGASCharacter) :
    CastAGASCharacter Pawn = some c ↔ Pawn = some (APawn.GASCharacter c) := by
  cases Pawn with
  | none => simp [CastAGASCharacter]
  | some p => cases p <;> simp [CastAGASCharacter]

theorem NotifyHealthChange_quiet (ps : AGASPlayerState) (asc : UAbilitySystemComponent)
    (attrs : UGASAttributeSet)
    (hA : ps.AbilitySystemComponent = some asc) (hS : ps.AttributeSet = some attrs)
    (v : float)
    (hq : float.ge v float.zero = true ∨ asc.HasMatchingGameplayTag ps.DeadTag = true ∨
      CastAGASCharacter ps.GetPawn = none) :
    ps.NotifyHealthChange v =
      some ({ ps with AttributeSet := some (attrs.SetHealth v) }, []) := by
  unfold NotifyHealthChange
  simp only [hS]
  rw [HealthChanged_eq { ps with AttributeSet := some (attrs.SetHealth v) } _ asc
    (attrs.SetHealth v) hA rfl]
  rcases hq with hq | hq | hq
  · simp [UGASAttributeSet.SetHealth, hq]
  · simp [hq]
  · have hq1 : CastAGASCharacter
        (GetPawn { ps with AttributeSet := some (attrs.SetHealth v) }) = none := hq
    rw [hq1]
    simp

theorem NotifyHealthChange_die (ps : AGASPlayerState) (asc : UAbilitySystemComponent)
    (attrs : UGASAttributeSet)
    (hA : ps.AbilitySystemComponent = some asc) (hS : ps.AttributeSet = some attrs)
    (v : float) (c : AGASCharacter)
    (hv : float.ge v float.zero = false) (hD : asc.HasMatchingGameplayTag ps.DeadTag = false)
    (hP : ps.GetPawn = some (APawn.GASCharacter c)) :
    ps.NotifyHealthChange v =
      some (c.Die { ps with AttributeSet := some (attrs.SetHealth v) }, [Call.Die c]) := by
  unfold NotifyHealthChange
  simp only [hS]
  rw [HealthChanged_eq { ps with AttributeSet := some (attrs.SetHealth v) } _ asc
    (attrs.SetHealth v) hA rfl]
  have hP1 : GetPawn { ps with AttributeSet := some (attrs.SetHealth v) } =
      some (APawn.GASCharacter c) := hP
  rw [hP1]
  simp [UGASAttributeSet.SetHealth, hv, hD, CastAGASCharacter, Call.apply]

theorem StunTagChanged_step (ps : AGASPlayerState) (asc : UAbilitySystemComponent)
    (hA : ps.AbilitySystemComponent = some asc) (CallbackTag : FGameplayTag) (NewCount : Int) :
    ps.StunTagChanged CallbackTag NewCount = some (ps,
      if NewCount > 0 then
        [Call.CancelAbilities
          { GameplayTags := [FGameplayTag.RequestGameplayTag "Ability"] }
          { GameplayTags := [FGameplayTag.RequestGameplayTag "Ability.NotCanceledByStun"] }]
      else []) := by
  by_cases hn : NewCount > 0
  · simp [StunTagChanged, hA, hn, FGameplayTagContainer.AddTag, FGameplayTagContainer.empty]
  · simp [StunTagChanged, hn]

theorem cancelCount_cons (calls : List Call) (trace : List (List Call)) :
    cancelCount (calls :: trace) =
      (calls.filter Call.isCancelAbilities).length + cancelCount trace := by
  unfold cancelCount
  rw [List.flatten_cons, List.filter_append, List.length_append]

theorem dieCount_cons (calls : List Call) (trace : List (List Call)) :
    dieCount (calls :: trace) = (calls.filter Call.isDie).length + dieCount trace := by
  unfold dieCount
  rw [List.flatten_cons, List.filter_append, List.length_append]

theorem dieCount_replicate_nil (n : Nat) : dieCount (List.replicate n []) = 0 := by
  induction n with
  | zero => rfl
  | succ k ih => rw [List.replicate_succ, dieCount_cons, ih]; rfl

theorem BeginPlay_eq (r : Bool) (ps : AGASPlayerState) (asc : UAbilitySystemComponent)
    (hA : ps.AbilitySystemComponent = some asc)
    (hG : ∀ a, ps.GetAttribute r a = some a) :
    ps.BeginPlay r = some { ps with
      AbilitySystemComponent := some { asc with
        AttributeValueChangeDelegates := asc.AttributeValueChangeDelegates ++
          [{ Attribute := FGameplayAttribute.Health,
             Callback := FAttributeCallback.HealthChanged,
             Handle := { ID := asc.NextHandleID + 1 } },
           { Attribute := FGameplayAttribute.MaxHealth,
             Callback := FAttributeCallback.MaxHealthChanged,
             Handle := { ID := asc.NextHandleID + 2 } },
           { Attribute := FGameplayAttribute.HealthRegenRate,
             Callback := FAttributeCallback.HealthRegenRateChanged,
             Handle := { ID := asc.NextHandleID + 3 } },
           { Attribute := FGameplayAttribute.XP,
             Callback := FAttributeCallback.XPChanged,
             Handle := { ID := asc.NextHandleID + 4 } },
           { Attribute := FGameplayAttribute.Gold,
             Callback := FAttributeCallback.GoldChanged,
             Handle := { ID := asc.NextHandleID + 5 } },
           { Attribute := FGameplayAttribute.CharacterLevel,
             Callback := FAttributeCallback.CharacterLevelChanged,
             Handle := { ID := asc.NextHandleID + 6 } }]
        GameplayTagEvents := asc.GameplayTagEvents ++
          [{ Tag := FGameplayTag.RequestGameplayTag "State.Debuff.Stun",
             EventType := EGameplayTagEventType.NewOrRemoved,
             Callback := FTagCallback.StunTagChanged,
             Handle := { ID := asc.NextHandleID + 7 } }]
        NextHandleID := asc.NextHandleID + 7 }
      HealthChangedDelegateHandle := { ID := asc.NextHandleID + 1 }
      MaxHealthChangedDelegateHandle := { ID := asc.NextHandleID + 2 }
      HealthRegenRateChangedDelegateHandle := { ID := asc.NextHandleID + 3 }
      XPChangedDelegateHandle := { ID := asc.NextHandleID + 4 }
      GoldChangedDelegateHandle := { ID := asc.NextHandleID + 5 }
      CharacterLevelChangedDelegateHandle := { ID := asc.NextHandleID + 6 } } := by
  unfold BeginPlay
  simp only [hA, hG, Option.bind_eq_bind, Option.some_bind, Option.pure_def,
    UAbilitySystemComponent.AddAttributeValueChangeDelegate,
    UAbilitySystemComponent.RegisterGameplayTagEvent, List.append_assoc, List.cons_append,
    List.nil_append, Nat.add_assoc]

theorem BeginPlay_eq_self_iff (r : Bool) (ps : AGASPlayerState) :
    ps.BeginPlay r = some ps ↔ ps.AbilitySystemComponent = none := by
  constructor
  · intro h
    cases hA : ps.AbilitySystemComponent with
    | none => rfl
    | some asc =>
      exfalso
      cases hG : ps.GetAttribute r FGameplayAttribute.Health with
      | none =>
        simp [BeginPlay, hA, hG] at h
      | some a =>
        have hG1 : ∀ a, ps.GetAttribute r a = some a := by
          intro a
          unfold GetAttribute at hG ⊢
          cases hS : ps.AttributeSet with
          | some _ => rfl
          | none =>
            rw [hS] at hG
            cases r <;> simp_all
        rw [BeginPlay_eq r ps asc hA hG1] at h
        have h1 := congrArg (fun o => o.map subscriptionCount) h
        simp [subscriptionCount, hA] at h1
        omega
  · intro hA
    simp [BeginPlay, hA]

theorem Die_fields (c : AGASCharacter) (ps : AGASPlayerState) (asc : UAbilitySystemComponent)
    (hA : ps.AbilitySystemComponent = some asc) :
    (c.Die ps).AbilitySystemComponent =
        some (asc.AddLooseGameplayTag (FGameplayTag.RequestGameplayTag "State.Dead")) ∧
      (c.Die ps).AttributeSet = ps.AttributeSet ∧ (c.Die ps).DeadTag = ps.DeadTag ∧
      (c.Die ps).GetPawn = ps.GetPawn := by
  unfold AGASCharacter.Die
  rw [hA]
  exact ⟨rfl, rfl, rfl, rfl⟩

theorem HasMatchingGameplayTag_AddLooseGameplayTag (asc : UAbilitySystemComponent)
    (Tag : FGameplayTag) :
    (asc.AddLooseGameplayTag Tag).HasMatchingGameplayTag Tag = true := by
  simp [UAbilitySystemComponent.HasMatchingGameplayTag,
    UAbilitySystemComponent.AddLooseGameplayTag]

theorem NotifyHealthChanges_of_dead (ps : AGASPlayerState) (asc : UAbilitySystemComponent)
    (attrs : UGASAttributeSet)
    (hA : ps.AbilitySystemComponent = some asc) (hS : ps.AttributeSet = some attrs)
    (hD : asc.HasMatchingGameplayTag ps.DeadTag = true) (vs : List float) :
    ∃ ps1, ps.NotifyHealthChanges vs = some (ps1, List.replicate vs.length []) := by
  induction vs generalizing ps attrs with
  | nil => exact ⟨ps, rfl⟩
  | cons v vs ih =>
    have h1 := NotifyHealthChange_quiet ps asc attrs hA hS v (Or.inr (Or.inl hD))
    obtain ⟨ps1, h2⟩ := ih { ps with AttributeSet := some (attrs.SetHealth v) }
      (attrs.SetHealth v) hA rfl hD
    exact ⟨ps1, by simp only [NotifyHealthChanges, h1, h2, List.length_cons,
      List.replicate_succ]⟩

theorem NotifyHealthChanges_of_no_character (ps : AGASPlayerState)
    (asc : UAbilitySystemComponent) (attrs : UGASAttributeSet)
    (hA : ps.AbilitySystemComponent = some asc) (hS : ps.AttributeSet = some attrs)
    (hP : CastAGASCharacter ps.GetPawn = none) (vs : List float) :
    ∃ ps1, ps.NotifyHealthChanges vs = some (ps1, List.replicate vs.length []) := by
  induction vs generalizing ps attrs with
  | nil => exact ⟨ps, rfl⟩
  | cons v vs ih =>
    have h1 := NotifyHealthChange_quiet ps asc attrs hA hS v (Or.inr (Or.inr hP))
    obtain ⟨ps1, h2⟩ := ih { ps with AttributeSet := some (attrs.SetHealth v) }
      (attrs.SetHealth v) hA rfl hP
    exact ⟨ps1, by simp only [NotifyHealthChanges, h1, h2, List.length_cons,
      List.replicate_succ]⟩

theorem NotifyHealthChanges_of_alive (ps : AGASPlayerState) (asc : UAbilitySystemComponent)
    (attrs : UGASAttributeSet)
    (hA : ps.AbilitySystemComponent = some asc) (hS : ps.AttributeSet = some attrs)
    (vs : List float) (hall : ∀ w ∈ vs, float.ge w float.zero = true) :
    ∃ ps1 attrs1, ps.NotifyHealthChanges vs = some (ps1, List.replicate vs.length []) ∧
      ps1.AbilitySystemComponent = some asc ∧ ps1.AttributeSet = some attrs1 ∧
      ps1.DeadTag = ps.DeadTag ∧ ps1.GetPawn = ps.GetPawn := by
  induction vs generalizing ps attrs with
  | nil => exact ⟨ps, attrs, rfl, hA, hS, rfl, rfl⟩
  | cons v vs ih =>
    have h1 := NotifyHealthChange_quiet ps asc attrs hA hS v
      (Or.inl (hall v (List.mem_cons_self v vs)))
    obtain ⟨ps1, attrs1, h2, h3, h4, h5, h6⟩ :=
      ih { ps with AttributeSet := some (attrs.SetHealth v) } (attrs.SetHealth v) hA rfl
        (fun w hw => hall w (List.mem_cons_of_mem v hw))
    exact ⟨ps1, attrs1, by simp only [NotifyHealthChanges, h1, h2, List.length_cons,
      List.replicate_succ], h3, h4, h5, h6⟩

theorem NotifyHealthChanges_append (ps ps1 ps2 : AGASPlayerState) (pre rest : List float)
    (t1 t2 : List (List Call))
    (h1 : ps.NotifyHealthChanges pre = some (ps1, t1))
    (h2 : ps1.NotifyHealthChanges rest = some (ps2, t2)) :
    ps.NotifyHealthChanges (pre ++ rest) = some (ps2, t1 ++ t2) := by
  induction pre generalizing ps t1 with
  | nil =>
    simp only [NotifyHealthChanges, Option.some.injEq, Prod.mk.injEq] at h1
    obtain ⟨rfl, rfl⟩ := h1
    simpa using h2
  | cons v vs ih =>
    cases hstep : ps.NotifyHealthChange v with
    | none => simp [NotifyHealthChanges, hstep] at h1
    | some r =>
      obtain ⟨s1, calls⟩ := r
      cases hrest : s1.NotifyHealthChanges vs with
      | none => simp [NotifyHealthChanges, hstep, hrest] at h1
      | some r2 =>
        obtain ⟨s2, trace⟩ := r2
        simp only [NotifyHealthChanges, hstep, hrest, Option.some.injEq, Prod.mk.injEq] at h1
        obtain ⟨rfl, rfl⟩ := h1
        have := ih s1 trace hrest
        simp only [List.cons_append, NotifyHealthChanges, hstep, List.append_eq, this]

/-- From a state with both collaborators present and `DeadTag` the tag `State.Dead`, every
sequence of health changes is processed to the end with at most one `Die()` call. -/
theorem NotifyHealthChanges_dieCount_le_one (ps : AGASPlayerState)
    (asc : UAbilitySystemComponent) (attrs : UGASAttributeSet)
    (hA : ps.AbilitySystemComponent = some asc) (hS : ps.AttributeSet = some attrs)
    (hT : ps.DeadTag = FGameplayTag.RequestGameplayTag "State.Dead") (vs : List float) :
    ∃ ps1 trace, ps.NotifyHealthChanges vs = some (ps1, trace) ∧
      trace.length = vs.length ∧ dieCount trace ≤ 1 := by
  induction vs generalizing ps asc attrs with
  | nil => exact ⟨ps, [], rfl, rfl, by decide⟩
  | cons v vs ih =>
    by_cases hq : float.ge v float.zero = true ∨ asc.HasMatchingGameplayTag ps.DeadTag = true ∨
        CastAGASCharacter ps.GetPawn = none
    · have h1 := NotifyHealthChange_quiet ps asc attrs hA hS v hq
      obtain ⟨ps1, trace, h2, h3, h4⟩ :=
        ih { ps with AttributeSet := some (attrs.SetHealth v) } asc (attrs.SetHealth v) hA rfl hT
      refine ⟨ps1, [] :: trace, by simp only [NotifyHealthChanges, h1, h2], by simp [h3], ?_⟩
      rw [dieCount_cons]
      simpa using h4
    · simp only [not_or, Bool.not_eq_true] at hq
      obtain ⟨hv, hD, hP⟩ := hq
      cases hc : CastAGASCharacter ps.GetPawn with
      | none => exact absurd hc hP
      | some c =>
        have hP1 := (CastAGASCharacter_eq_some _ _).1 hc
        have h1 := NotifyHealthChange_die ps asc attrs hA hS v c hv hD hP1
        obtain ⟨f1, f2, f3, -⟩ :=
          Die_fields c { ps with AttributeSet := some (attrs.SetHealth v) } asc hA
        have hdead : (asc.AddLooseGameplayTag
            (FGameplayTag.RequestGameplayTag "State.Dead")).HasMatchingGameplayTag
            (c.Die { ps with AttributeSet := some (attrs.SetHealth v) }).DeadTag = true := by
          rw [f3]
          show UAbilitySystemComponent.HasMatchingGameplayTag _ ps.DeadTag = true
          rw [hT]
          exact HasMatchingGameplayTag_AddLooseGameplayTag asc _
        obtain ⟨ps1, h2⟩ := NotifyHealthChanges_of_dead _ _ (attrs.SetHealth v) f1 f2 hdead vs
        refine ⟨ps1, [Call.Die c] :: List.replicate vs.length [], by
          simp only [NotifyHealthChanges, h1, h2], by simp, ?_⟩
        rw [dieCount_cons, dieCount_replicate_nil]
        simp [Call.isDie]

/-! ## The claims -/

/-- C1, as stated, fails. (a) Notified value `-5`, store Health `-5`, Dead tag absent, no
pawn: no `Die()` call. (b) The same with a pawn of another class. (c) Notified value `-5`
while the store holds Health `100`, Dead tag absent, pawn an `AGASCharacter`: no `Die()`
call. (d) Notified value `100` while the store holds `-5`: one `Die()` call. -/
theorem HealthChanged_newValue_counterexample :
    float.lt (float.ofInt (-5)) float.zero = true ∧
    float.lt (float.ofInt 100) float.zero = false ∧
    (exampleState (float.ofInt (-5)) none).HasDeadTag = false ∧
    (exampleState (float.ofInt (-5)) none).HealthChanged
        { NewValue := float.ofInt (-5), OldValue := float.ofInt 50 } =
      some (exampleState (float.ofInt (-5)) none, []) ∧
    (exampleState (float.ofInt (-5)) (some (APawn.OtherPawn 3))).HealthChanged
        { NewValue := float.ofInt (-5), OldValue := float.ofInt 50 } =
      some (exampleState (float.ofInt (-5)) (some (APawn.OtherPawn 3)), []) ∧
    (exampleState (float.ofInt 100) (some (APawn.GASCharacter exampleCharacter))).HealthChanged
        { NewValue := float.ofInt (-5), OldValue := float.ofInt 100 } =
      some (exampleState (float.ofInt 100) (some (APawn.GASCharacter exampleCharacter)), []) ∧
    (exampleState (float.ofInt (-5)) (some (APawn.GASCharacter exampleCharacter))).HealthChanged
        { NewValue := float.ofInt 100, OldValue := float.ofInt (-5) } =
      some (exampleState (float.ofInt (-5)) (some (APawn.GASCharacter exampleCharacter)),
        [Call.Die exampleCharacter]) := by
  decide

/-- C1, amended. With both collaborators present and the store's Health equal to the
notified value `v`: if the pawn is an `AGASCharacter`, `HealthChanged` calls its `Die()`
exactly once when `v` is not `>= 0.0f` (that is `v < 0.0f` or `v` a NaN) and the Dead tag
is absent, and calls nothing otherwise; if the pawn is null or of another class it calls
nothing. The player state is left as it was. -/
theorem HealthChanged_newValue_in_sync (ps : AGASPlayerState) (Data : FOnAttributeChangeData)
    (asc : UAbilitySystemComponent) (attrs : UGASAttributeSet)
    (hA : ps.AbilitySystemComponent = some asc) (hS : ps.AttributeSet = some attrs)
    (hV : attrs.Health = Data.NewValue) :
    (∀ c, ps.GetPawn = some (APawn.GASCharacter c) →
      ps.HealthChanged Data = some (ps,
        if (float.lt Data.NewValue float.zero = true ∨ Data.NewValue = float.nan) ∧
            asc.HasMatchingGameplayTag ps.DeadTag = false
        then [Call.Die c] else [])) ∧
    (CastAGASCharacter ps.GetPawn = none → ps.HealthChanged Data = some (ps, [])) := by
  rw [HealthChanged_eq ps Data asc attrs hA hS, hV]
  constructor
  · intro c hc
    rw [(CastAGASCharacter_eq_some _ _).2 hc]
    simp only [float.ge_zero_eq_false_iff]
  · intro hc
    rw [hc]
    simp

theorem HealthChanged_newValue_in_sync_witness :
    (exampleState (float.ofInt (-5)) (some (APawn.GASCharacter exampleCharacter))).HealthChanged
        { NewValue := float.ofInt (-5), OldValue := float.ofInt 50 } =
      some (exampleState (float.ofInt (-5)) (some (APawn.GASCharacter exampleCharacter)),
        [Call.Die exampleCharacter]) :=
  (HealthChanged_newValue_in_sync
    (exampleState (float.ofInt (-5)) (some (APawn.GASCharacter exampleCharacter)))
    { NewValue := float.ofInt (-5), OldValue := float.ofInt 50 }
    exampleController (exampleStore (float.ofInt (-5))) rfl rfl rfl).1 exampleCharacter rfl

/-- C2. With both collaborators present and the Dead tag present on the ability
controller, `HealthChanged` makes no call at all, whatever the notified value, the store's
Health and the pawn; and any sequence of health changes notified from such a state yields
no `Die()` call. -/
theorem HealthChanged_dead_no_die (ps : AGASPlayerState) (asc : UAbilitySystemComponent)
    (attrs : UGASAttributeSet)
    (hA : ps.AbilitySystemComponent = some asc) (hS : ps.AttributeSet = some attrs)
    (hD : asc.HasMatchingGameplayTag ps.DeadTag = true) :
    (∀ Data, ps.HealthChanged Data = some (ps, [])) ∧
    (∀ NewValues : List float, ∃ ps1,
      ps.NotifyHealthChanges NewValues = some (ps1, List.replicate NewValues.length []) ∧
      dieCount (List.replicate NewValues.length []) = 0) := by
  constructor
  · intro Data
    rw [HealthChanged_eq ps Data asc attrs hA hS]
    simp [hD]
  · intro NewValues
    induction NewValues generalizing ps attrs with
    | nil => exact ⟨ps, rfl, rfl⟩
    | cons v vs ih =>
      have h1 := NotifyHealthChange_quiet ps asc attrs hA hS v (Or.inr (Or.inl hD))
      obtain ⟨ps1, h2, _⟩ := ih { ps with AttributeSet := some (attrs.SetHealth v) }
        (attrs.SetHealth v) hA rfl hD
      refine ⟨ps1, ?_, ?_⟩
      · simp only [NotifyHealthChanges, h1, h2, List.length_cons, List.replicate_succ]
      · simp [dieCount]

theorem HealthChanged_dead_no_die_witness :
    (exampleDeadState (float.ofInt (-5))
        (some (APawn.GASCharacter exampleCharacter))).HasDeadTag = true ∧
    (exampleDeadState (float.ofInt (-5)) (some (APawn.GASCharacter exampleCharacter))).HealthChanged
        { NewValue := float.ofInt (-7), OldValue := float.ofInt (-5) } =
      some (exampleDeadState (float.ofInt (-5)) (some (APawn.GASCharacter exampleCharacter)), []) :=
  ⟨by decide, (HealthChanged_dead_no_die
    (exampleDeadState (float.ofInt (-5)) (some (APawn.GASCharacter exampleCharacter)))
    (exampleController.AddLooseGameplayTag (FGameplayTag.RequestGameplayTag "State.Dead"))
    (exampleStore (float.ofInt (-5))) rfl rfl (by decide)).1
    { NewValue := float.ofInt (-7), OldValue := float.ofInt (-5) }⟩

/-- C3. With the attribute store present, `IsAlive()` returns, and it returns true exactly
when the store's Health is `>= 0.0f`: plus infinity or a finite value standing for a
rational number `≥ 0`. Health `0.0f` (and `-0.0f`) is alive; every Health `< 0.0f` is not. -/
theorem IsAlive_iff_health_nonneg (ps : AGASPlayerState) (attrs : UGASAttributeSet)
    (hS : ps.AttributeSet = some attrs) :
    ps.IsAlive = some (float.ge attrs.Health float.zero) ∧
    (ps.IsAlive = some true ↔
      attrs.Health = float.inf false ∨ ∃ q, attrs.Health.toRat = some q ∧ 0 ≤ q) ∧
    (attrs.Health = float.zero → ps.IsAlive = some true) ∧
    (attrs.Health = float.finite true 0 0 → ps.IsAlive = some true) ∧
    (float.lt attrs.Health float.zero = true → ps.IsAlive = some false) := by
  have h : ps.IsAlive = some (float.ge attrs.Health float.zero) := by
    simp [IsAlive, GetHealth, hS]
  refine ⟨h, ?_, ?_, ?_, ?_⟩
  · rw [h, Option.some.injEq, float.ge_zero_iff]
  · intro hz
    rw [h, hz]
    rfl
  · intro hz
    rw [h, hz]
    rfl
  · intro hlt
    rw [h, Option.some.injEq, float.ge_zero_eq_false_iff]
    exact Or.inl hlt

theorem IsAlive_iff_health_nonneg_witness :
    (exampleState (float.ofInt (-5)) none).AttributeSet = some (exampleStore (float.ofInt (-5))) ∧
    (exampleState (float.ofInt (-5)) none).IsAlive = some false :=
  ⟨rfl, (IsAlive_iff_health_nonneg (exampleState (float.ofInt (-5)) none)
    (exampleStore (float.ofInt (-5))) rfl).2.2.2.2 (by decide)⟩

/-- C4. For every callback tag and count: with the ability controller present and
`NewCount > 0`, `StunTagChanged` makes exactly one call, `CancelAbilities` with
tags-to-cancel `Ability` and tags-to-exempt `Ability.NotCanceledByStun`; with
`NewCount ≤ 0` it makes no call. The player state is left as it was. -/
theorem StunTagChanged_cancels (ps : AGASPlayerState) (CallbackTag : FGameplayTag)
    (NewCount : Int) :
    (∀ asc, ps.AbilitySystemComponent = some asc → 0 < NewCount →
      ps.StunTagChanged CallbackTag NewCount = some (ps,
        [Call.CancelAbilities
          { GameplayTags := [FGameplayTag.RequestGameplayTag "Ability"] }
          { GameplayTags := [FGameplayTag.RequestGameplayTag "Ability.NotCanceledByStun"] }])) ∧
    (NewCount ≤ 0 → ps.StunTagChanged CallbackTag NewCount = some (ps, [])) := by
  constructor
  · intro asc hA hn
    have hn1 : NewCount > 0 := hn
    simp [StunTagChanged, hA, hn1, FGameplayTagContainer.AddTag, FGameplayTagContainer.empty]
  · intro hn
    have hn1 : ¬ NewCount > 0 := by omega
    simp [StunTagChanged, hn1]

theorem StunTagChanged_cancels_witness :
    (exampleState (float.ofInt 100) none).StunTagChanged
        (FGameplayTag.RequestGameplayTag "State.Debuff.Stun") 1 =
      some (exampleState (float.ofInt 100) none,
        [Call.CancelAbilities
          { GameplayTags := [FGameplayTag.RequestGameplayTag "Ability"] }
          { GameplayTags := [FGameplayTag.RequestGameplayTag "Ability.NotCanceledByStun"] }]) ∧
    (exampleState (float.ofInt 100) none).StunTagChanged
        (FGameplayTag.RequestGameplayTag "State.Debuff.Stun") 0 =
      some (exampleState (float.ofInt 100) none, []) :=
  ⟨(StunTagChanged_cancels (exampleState (float.ofInt 100) none)
      (FGameplayTag.RequestGameplayTag "State.Debuff.Stun") 1).1 exampleController rfl
      (by decide),
   (StunTagChanged_cancels (exampleState (float.ofInt 100) none)
      (FGameplayTag.RequestGameplayTag "State.Debuff.Stun") 0).2 (by decide)⟩

/-- C5, as stated, fails when only the attribute store is absent: with the ability
controller present and `AttributeSet` null, `BeginPlay` does not skip registration. If
the attribute accessors read through the pointer it dereferences null; if they are static
it registers all seven subscriptions. (With the ability controller absent it does skip.) -/
theorem BeginPlay_null_store_counterexample :
    exampleStateNoStore.AttributeSet = none ∧
    exampleStateNoStore.BeginPlay true = none ∧
    (exampleStateNoStore.BeginPlay false).map subscriptionCount = some 7 ∧
    exampleStateNoStore.subscriptionCount = 0 ∧
    exampleStateNoStore.BeginPlay false ≠ some exampleStateNoStore := by
  decide

/-- C5, amended. `BeginPlay` skips subscription registration, returning with the player
state as it was, exactly when the ability controller (`AbilitySystemComponent`) is absent,
whether or not the attribute store is there; the attribute store pointer is not tested. -/
theorem BeginPlay_skips_iff_no_controller (AccessorReadsObject : Bool)
    (ps : AGASPlayerState) :
    (ps.BeginPlay AccessorReadsObject = some ps ↔ ps.AbilitySystemComponent = none) ∧
    (ps.AbilitySystemComponent = none →
      (ps.BeginPlay AccessorReadsObject).map subscriptionCount = some 0) := by
  refine ⟨BeginPlay_eq_self_iff AccessorReadsObject ps, ?_⟩
  intro hA
  simp [BeginPlay, hA, subscriptionCount]

theorem BeginPlay_skips_iff_no_controller_witness :
    exampleStateNoController.BeginPlay true = some exampleStateNoController ∧
    (exampleStateNoController.BeginPlay true).map subscriptionCount = some 0 :=
  ⟨(BeginPlay_skips_iff_no_controller true exampleStateNoController).1.2 rfl,
   (BeginPlay_skips_iff_no_controller true exampleStateNoController).2 rfl⟩

/-- C6. With the ability controller and the attribute store both present, `BeginPlay`
returns and has registered exactly seven more subscriptions: in order, one attribute-change
subscription for each of Health, MaxHealth, HealthRegenRate, XP, Gold and CharacterLevel,
bound to the handler of the same attribute, and one tag subscription for
`State.Debuff.Stun` bound to `StunTagChanged`. -/
theorem BeginPlay_registers_seven (AccessorReadsObject : Bool) (ps : AGASPlayerState)
    (asc : UAbilitySystemComponent) (attrs : UGASAttributeSet)
    (hA : ps.AbilitySystemComponent = some asc) (hS : ps.AttributeSet = some attrs) :
    ∃ ps1, ps.BeginPlay AccessorReadsObject = some ps1 ∧
      ps1.subscriptionCount = ps.subscriptionCount + 7 ∧
      ps1.attributeBindings = ps.attributeBindings ++
        [(FGameplayAttribute.Health, FAttributeCallback.HealthChanged),
         (FGameplayAttribute.MaxHealth, FAttributeCallback.MaxHealthChanged),
         (FGameplayAttribute.HealthRegenRate, FAttributeCallback.HealthRegenRateChanged),
         (FGameplayAttribute.XP, FAttributeCallback.XPChanged),
         (FGameplayAttribute.Gold, FAttributeCallback.GoldChanged),
         (FGameplayAttribute.CharacterLevel, FAttributeCallback.CharacterLevelChanged)] ∧
      ps1.tagBindings = ps.tagBindings ++
        [(FGameplayTag.RequestGameplayTag "State.Debuff.Stun",
          EGameplayTagEventType.NewOrRemoved, FTagCallback.StunTagChanged)] := by
  have hG : ∀ a, ps.GetAttribute AccessorReadsObject a = some a := by
    intro a
    simp [GetAttribute, hS]
  refine ⟨_, BeginPlay_eq AccessorReadsObject ps asc hA hG, ?_, ?_, ?_⟩
  · simp [subscriptionCount, hA]
    omega
  · simp [attributeBindings, hA]
  · simp [tagBindings, hA]

theorem BeginPlay_registers_seven_witness :
    ∃ ps1, (exampleState (float.ofInt 100) none).BeginPlay true = some ps1 ∧
      ps1.subscriptionCount = (exampleState (float.ofInt 100) none).subscriptionCount + 7 ∧
      ps1.attributeBindings = (exampleState (float.ofInt 100) none).attributeBindings ++
        [(FGameplayAttribute.Health, FAttributeCallback.HealthChanged),
         (FGameplayAttribute.MaxHealth, FAttributeCallback.MaxHealthChanged),
         (FGameplayAttribute.HealthRegenRate, FAttributeCallback.HealthRegenRateChanged),
         (FGameplayAttribute.XP, FAttributeCallback.XPChanged),
         (FGameplayAttribute.Gold, FAttributeCallback.GoldChanged),
         (FGameplayAttribute.CharacterLevel, FAttributeCallback.CharacterLevelChanged)] ∧
      ps1.tagBindings = (exampleState (float.ofInt 100) none).tagBindings ++
        [(FGameplayTag.RequestGameplayTag "State.Debuff.Stun",
          EGameplayTagEventType.NewOrRemoved, FTagCallback.StunTagChanged)] :=
  BeginPlay_registers_seven true (exampleState (float.ofInt 100) none) exampleController
    (exampleStore (float.ofInt 100)) rfl rfl

/-- C7, as stated, fails. (a) From a constructed state with the Dead tag absent and no
pawn, the sequence `[100, 50, -5]` yields no `Die()` call at all, although `-5` is below
zero. (b) With an `AGASCharacter` pawn, the sequence `[NaN, -5]` yields its one `Die()`
call at the NaN, which is not below zero, and none at `-5`. -/
theorem NotifyHealthChanges_first_negative_counterexample :
    float.lt (float.ofInt (-5)) float.zero = true ∧
    (exampleState (float.ofInt 100) none).HasDeadTag = false ∧
    traceOf ((exampleState (float.ofInt 100) none).NotifyHealthChanges
      [float.ofInt 100, float.ofInt 50, float.ofInt (-5)]) = some [[], [], []] ∧
    float.lt float.nan float.zero = false ∧
    traceOf ((exampleState (float.ofInt 100)
        (some (APawn.GASCharacter exampleCharacter))).NotifyHealthChanges
      [float.nan, float.ofInt (-5)]) = some [[Call.Die exampleCharacter], []] := by
  decide

/-- C7, amended. From a state with both collaborators present and `DeadTag` the tag
`State.Dead`, with `Die()` setting the Dead tag synchronously and nothing removing it,
every finite sequence of health changes notified to `HealthChanged` is processed in full
with at most one `Die()` call. If moreover the Dead tag is absent at the start and the
pawn is an `AGASCharacter`, the one call is made at the first notification whose health is
not `>= 0.0f` (below zero, or a NaN) and at no other, and no call is made when every
health is `>= 0.0f`. If the pawn is null or of another class no call is made. -/
theorem NotifyHealthChanges_die_once (ps : AGASPlayerState) (asc : UAbilitySystemComponent)
    (attrs : UGASAttributeSet)
    (hA : ps.AbilitySystemComponent = some asc) (hS : ps.AttributeSet = some attrs)
    (hT : ps.DeadTag = FGameplayTag.RequestGameplayTag "State.Dead")
    (NewValues : List float) :
    (∃ trace, traceOf (ps.NotifyHealthChanges NewValues) = some trace ∧
      trace.length = NewValues.length ∧ dieCount trace ≤ 1) ∧
    (∀ c, ps.GetPawn = some (APawn.GASCharacter c) →
      asc.HasMatchingGameplayTag ps.DeadTag = false →
      (∀ pre v post, NewValues = pre ++ v :: post →
        (∀ w ∈ pre, float.ge w float.zero = true) →
        (float.lt v float.zero = true ∨ v = float.nan) →
        traceOf (ps.NotifyHealthChanges NewValues) =
          some (List.replicate pre.length [] ++ [Call.Die c] :: List.replicate post.length [])) ∧
      ((∀ w ∈ NewValues, float.ge w float.zero = true) →
        traceOf (ps.NotifyHealthChanges NewValues) =
          some (List.replicate NewValues.length []))) ∧
    (CastAGASCharacter ps.GetPawn = none →
      traceOf (ps.NotifyHealthChanges NewValues) = some (List.replicate NewValues.length [])) := by
  refine ⟨?_, ?_, ?_⟩
  · obtain ⟨ps1, trace, h1, h2, h3⟩ :=
      NotifyHealthChanges_dieCount_le_one ps asc attrs hA hS hT NewValues
    exact ⟨trace, by rw [h1]; rfl, h2, h3⟩
  · intro c hP hD
    constructor
    · intro pre v post hsplit hpre hv
      have hv1 := (float.ge_zero_eq_false_iff v).2 hv
      obtain ⟨ps1, attrs1, h1, a1, s1, t1, p1⟩ :=
        NotifyHealthChanges_of_alive ps asc attrs hA hS pre hpre
      have hstep := NotifyHealthChange_die ps1 asc attrs1 a1 s1 v c hv1 (by rw [t1]; exact hD)
        (by rw [p1]; exact hP)
      obtain ⟨f1, f2, f3, -⟩ :=
        Die_fields c { ps1 with AttributeSet := some (attrs1.SetHealth v) } asc a1
      have hdead : (asc.AddLooseGameplayTag
          (FGameplayTag.RequestGameplayTag "State.Dead")).HasMatchingGameplayTag
          (c.Die { ps1 with AttributeSet := some (attrs1.SetHealth v) }).DeadTag = true := by
        rw [f3]
        show UAbilitySystemComponent.HasMatchingGameplayTag _ ps1.DeadTag = true
        rw [t1, hT]
        exact HasMatchingGameplayTag_AddLooseGameplayTag asc _
      obtain ⟨ps2, h2⟩ := NotifyHealthChanges_of_dead _ _ (attrs1.SetHealth v) f1 f2 hdead post
      have h3 : ps1.NotifyHealthChanges (v :: post) =
          some (ps2, [Call.Die c] :: List.replicate post.length []) := by
        simp only [NotifyHealthChanges, hstep, h2]
      rw [hsplit, NotifyHealthChanges_append ps ps1 ps2 pre (v :: post) _ _ h1 h3]
      rfl
    · intro hall
      obtain ⟨ps1, attrs1, h1, -⟩ := NotifyHealthChanges_of_alive ps asc attrs hA hS NewValues hall
      rw [h1]
      rfl
  · intro hP
    obtain ⟨ps1, h1⟩ := NotifyHealthChanges_of_no_character ps asc attrs hA hS hP NewValues
    rw [h1]
    rfl

theorem NotifyHealthChanges_die_once_witness :
    traceOf ((exampleState (float.ofInt 100)
        (some (APawn.GASCharacter exampleCharacter))).NotifyHealthChanges
      [float.ofInt 100, float.ofInt 50, float.ofInt (-5)]) =
      some [[], [], [Call.Die exampleCharacter]] :=
  ((NotifyHealthChanges_die_once
    (exampleState (float.ofInt 100) (some (APawn.GASCharacter exampleCharacter)))
    exampleController (exampleStore (float.ofInt 100)) rfl rfl rfl
    [float.ofInt 100, float.ofInt 50, float.ofInt (-5)]).2.1 exampleCharacter rfl
    (by decide)).1 [float.ofInt 100, float.ofInt 50] (float.ofInt (-5)) [] rfl (by decide)
    (Or.inl (by decide))

/-- C8. With the ability controller present, a sequence of stun counts delivered one by
one to `StunTagChanged` is processed to the end, leaves the player state as it was, and
makes as many `CancelAbilities` calls as there are counts `> 0`, one at each of them and
no other call; for `[0, 1, 2, 0]` that is exactly two. -/
theorem StunTagChangedEach_cancelCount (ps : AGASPlayerState) (asc : UAbilitySystemComponent)
    (hA : ps.AbilitySystemComponent = some asc) (CallbackTag : FGameplayTag) :
    (∀ NewCounts : List Int, ∃ trace,
      ps.StunTagChangedEach CallbackTag NewCounts = some (ps, trace) ∧
      trace.length = NewCounts.length ∧
      cancelCount trace = (NewCounts.filter (fun n => decide (n > 0))).length ∧
      trace.flatten.length = cancelCount trace ∧
      trace.map List.length = NewCounts.map (fun n => if n > 0 then 1 else 0)) ∧
    (∃ trace, ps.StunTagChangedEach CallbackTag [0, 1, 2, 0] = some (ps, trace) ∧
      cancelCount trace = 2) := by
  have main : ∀ NewCounts : List Int, ∃ trace,
      ps.StunTagChangedEach CallbackTag NewCounts = some (ps, trace) ∧
      trace.length = NewCounts.length ∧
      cancelCount trace = (NewCounts.filter (fun n => decide (n > 0))).length ∧
      trace.flatten.length = cancelCount trace ∧
      trace.map List.length = NewCounts.map (fun n => if n > 0 then 1 else 0) := by
    intro NewCounts
    induction NewCounts with
    | nil => exact ⟨[], rfl, rfl, rfl, rfl, rfl⟩
    | cons n ns ih =>
      obtain ⟨trace, h1, h2, h3, h4, h5⟩ := ih
      have hstep := StunTagChanged_step ps asc hA CallbackTag n
      by_cases hn : n > 0
      · rw [if_pos hn] at hstep
        refine ⟨[Call.CancelAbilities
          { GameplayTags := [FGameplayTag.RequestGameplayTag "Ability"] }
          { GameplayTags := [FGameplayTag.RequestGameplayTag "Ability.NotCanceledByStun"] }]
          :: trace, ?_, ?_, ?_, ?_, ?_⟩
        · simp only [StunTagChangedEach, hstep, h1]
        · simp [h2]
        · rw [cancelCount_cons, h3]
          simp [hn, Call.isCancelAbilities]
          omega
        · rw [cancelCount_cons, List.flatten_cons, List.length_append, h4]
          simp [Call.isCancelAbilities]
        · simp [hn, h5]
      · rw [if_neg hn] at hstep
        refine ⟨[] :: trace, ?_, ?_, ?_, ?_, ?_⟩
        · simp only [StunTagChangedEach, hstep, h1]
        · simp [h2]
        · rw [cancelCount_cons, h3]
          simp [hn]
        · rw [cancelCount_cons, List.flatten_cons, List.length_append, h4]
          simp
        · simp [hn, h5]
  refine ⟨main, ?_⟩
  obtain ⟨trace, h1, _, h3, _⟩ := main [0, 1, 2, 0]
  exact ⟨trace, h1, by rw [h3]; decide⟩

theorem StunTagChangedEach_cancelCount_witness :
    ∃ trace, (exampleState (float.ofInt 100) none).StunTagChangedEach
        (FGameplayTag.RequestGameplayTag "State.Debuff.Stun") [0, 1, 2, 0] =
      some (exampleState (float.ofInt 100) none, trace) ∧ cancelCount trace = 2 :=
  (StunTagChangedEach_cancelCount (exampleState (float.ofInt 100) none) exampleController rfl
    (FGameplayTag.RequestGameplayTag "State.Debuff.Stun")).2

/-- C9. For every notification and every state, each of `MaxHealthChanged`,
`HealthRegenRateChanged`, `XPChanged`, `GoldChanged` and `CharacterLevelChanged` returns
without making any call (no `Die()`, no `CancelAbilities`) and leaves the player state,
with its attribute values, tags and subscriptions, as it was. -/
theorem other_handlers_no_action (ps : AGASPlayerState) (Data : FOnAttributeChangeData) :
    ps.MaxHealthChanged Data = some (ps, []) ∧
    ps.HealthRegenRateChanged Data = some (ps, []) ∧
    ps.XPChanged Data = some (ps, []) ∧
    ps.GoldChanged Data = some (ps, []) ∧
    ps.CharacterLevelChanged Data = some (ps, []) := by
  refine ⟨?_, ?_, ?_, ?_, ?_⟩
  · unfold MaxHealthChanged
    cases CastAGASPlayerController ps.GetOwner <;>
      cases CastAGASCharacter ps.GetPawn <;> rfl
  · unfold HealthRegenRateChanged
    cases CastAGASPlayerController ps.GetOwner <;> rfl
  · unfold XPChanged
    cases CastAGASPlayerController ps.GetOwner <;> rfl
  · unfold GoldChanged
    cases CastAGASPlayerController ps.GetOwner <;> rfl
  · unfold CharacterLevelChanged
    cases CastAGASPlayerController ps.GetOwner <;> rfl

/-- C10, as stated, fails on a NaN: with the store's Health a NaN (which is not `< 0.0f`),
the Dead tag absent and the pawn an `AGASCharacter`, `HealthChanged` calls `Die()`. -/
theorem HealthChanged_nan_counterexample :
    float.lt float.nan float.zero = false ∧
    (exampleState float.nan (some (APawn.GASCharacter exampleCharacter))).HasDeadTag = false ∧
    (exampleState float.nan (some (APawn.GASCharacter exampleCharacter))).HealthChanged
        { NewValue := float.nan, OldValue := float.ofInt 50 } =
      some (exampleState float.nan (some (APawn.GASCharacter exampleCharacter)),
        [Call.Die exampleCharacter]) := by
  decide

/-- C10, amended. With both collaborators present, `HealthChanged` leaves the player state
as it was and calls `Die()` exactly once, on the pawn, if and only if the store's current
Health is not `>= 0.0f` (it is `< 0.0f` or a NaN), the Dead tag is absent and the pawn is an
`AGASCharacter`; otherwise it calls nothing. The notified value plays no part: two
notifications on the same state have the same effect; and with no pawn, or a pawn of
another class, nothing is called. -/
theorem HealthChanged_decides_on_store (ps : AGASPlayerState) (asc : UAbilitySystemComponent)
    (attrs : UGASAttributeSet)
    (hA : ps.AbilitySystemComponent = some asc) (hS : ps.AttributeSet = some attrs) :
    (∀ Data, ∃ calls, ps.HealthChanged Data = some (ps, calls) ∧
      (∀ c, calls = [Call.Die c] ↔
        ((float.lt attrs.Health float.zero = true ∨ attrs.Health = float.nan) ∧
          asc.HasMatchingGameplayTag ps.DeadTag = false ∧
          ps.GetPawn = some (APawn.GASCharacter c))) ∧
      ((∀ c, calls ≠ [Call.Die c]) → calls = [])) ∧
    (∀ Data1 Data2, ps.HealthChanged Data1 = ps.HealthChanged Data2) ∧
    (ps.GetPawn = none → ∀ Data, ps.HealthChanged Data = some (ps, [])) ∧
    (∀ n, ps.GetPawn = some (APawn.OtherPawn n) → ∀ Data, ps.HealthChanged Data = some (ps, [])) := by
  refine ⟨?_, ?_, ?_, ?_⟩
  · intro Data
    refine ⟨_, HealthChanged_eq ps Data asc attrs hA hS, ?_, ?_⟩
    · intro c
      rw [← float.ge_zero_eq_false_iff, ← CastAGASCharacter_eq_some]
      by_cases hg : float.ge attrs.Health float.zero = false
      · by_cases hd : asc.HasMatchingGameplayTag ps.DeadTag = false
        · cases hc : CastAGASCharacter ps.GetPawn <;> simp [hg, hd]
        · simp [hg, hd]
      · simp [hg]
    · intro hne
      by_cases hg : float.ge attrs.Health float.zero = false
      · by_cases hd : asc.HasMatchingGameplayTag ps.DeadTag = false
        · cases hc : CastAGASCharacter ps.GetPawn with
          | none => simp [hg, hd]
          | some c =>
            exfalso
            apply hne c
            simp [hg, hd, hc]
        · simp [hg, hd]
      · simp [hg]
  · intro Data1 Data2
    rw [HealthChanged_eq ps Data1 asc attrs hA hS, HealthChanged_eq ps Data2 asc attrs hA hS]
  · intro hp Data
    rw [HealthChanged_eq ps Data asc attrs hA hS, hp]
    simp [CastAGASCharacter]
  · intro n hp Data
    rw [HealthChanged_eq ps Data asc attrs hA hS, hp]
    simp [CastAGASCharacter]

theorem HealthChanged_decides_on_store_witness :
    (exampleState (float.ofInt (-5)) (some (APawn.GASCharacter exampleCharacter))).HealthChanged
        { NewValue := float.ofInt 100, OldValue := float.ofInt 50 } =
      (exampleState (float.ofInt (-5)) (some (APawn.GASCharacter exampleCharacter))).HealthChanged
        { NewValue := float.ofInt (-5), OldValue := float.ofInt 50 } :=
  (HealthChanged_decides_on_store
    (exampleState (float.ofInt (-5)) (some (APawn.GASCharacter exampleCharacter)))
    exampleController (exampleStore (float.ofInt (-5))) rfl rfl).2.1 _ _

end AGASPlayerState

end GASBase
